import Mathlib

/-!
Verification of `rp_handler.py`, a serverless Deforum job wrapper.

Shallow embedding conventions:
* pure helpers become Lean functions over a small `PyVal` type mirroring the
  Python values that actually reach them;
* network effects (HTTP requests) are passed in explicitly as outcome values,
  and the list of network calls actually attempted is returned alongside the
  result, so that claims about call order and about "no network activity"
  are statable;
* filesystem effects are passed as explicit state (lists of files);
* Python exceptions that propagate out of a function are modelled with
  `Except`: an `Except.error` value is a raised, uncaught exception.
Python numbers are carried as their `str()` rendering wherever the source
only ever formats them into strings.
-/

/-- A Python value as it reaches the schedule helpers `_sched` / `S`:
`None`, a number (`int`/`float`, carried as its Python `str()` rendering,
since the source only interpolates it into an f-string), or a string. -/
inductive PyVal where
  | pnone
  | pnum (rep : String)
  | pstr (s : String)
deriving Repr, DecidableEq

/-- Python `str.strip()`: remove leading and trailing whitespace. -/
def pyStrip (s : String) : String :=
  ⟨((s.data.dropWhile Char.isWhitespace).reverse.dropWhile Char.isWhitespace).reverse⟩

/-- From the source, `_tail(txt, n) = (txt or "")[-n:]`: the last `n`
characters of `txt` (all of it when it is shorter; Python's `[-0:]` slice
returns the whole string, mirrored by the `n == 0` branch). -/
def _tail (txt : String) (n : Nat) : String :=
  if n == 0 then txt else ⟨txt.data.drop (txt.data.length - n)⟩

/-- From the source, `_sched(val, default_str)`; the inner helper `S` of
`build_deforum_job` is textually identical to it.  An absent or empty value
yields the default; a number `v` yields `"0:(" + str(v) + ")"`; a string is
stripped and returned as-is when the stripped form contains `:`, `(` and `)`
(mere presence of the three characters, no balance check in the source),
otherwise wrapped as `"0:(" + stripped + ")"`. -/
def _sched (val : PyVal) (default_str : String) : String :=
  match val with
  | .pnone => default_str
  | .pnum rep => "0:(" ++ rep ++ ")"
  | .pstr s =>
    if s == "" then default_str
    else
      let t := pyStrip s
      if t.data.contains ':' && t.data.contains '(' && t.data.contains ')' then t
      else "0:(" ++ t ++ ")"

/-- A media file found under a search root: its path and its modification
time (`Path(x).stat().st_mtime`). -/
structure MediaFile where
  path : String
  mtime : Nat
deriving Repr, DecidableEq

/-- One search root: `none` models a directory that does not exist (for which
`glob.glob` simply returns no matches), `some files` the recursive listing of
an existing directory. -/
abbrev Root := Option (List MediaFile)

/-- `glob.glob(os.path.join(p, "**", "*" + ext), recursive=True)`: the files
under the root whose name ends with `ext`; a non-existent root yields `[]`. -/
def globRootExt (r : Root) (ext : String) : List MediaFile :=
  match r with
  | none => []
  | some files => files.filter (fun f => ext.data.isSuffixOf f.path.data)

/-- The three `cand.extend(...)` calls of `newest_video` for one root, in
source order: `*.mp4`, then `*.webm`, then `*.mov`. -/
def globRoot (r : Root) : List MediaFile :=
  globRootExt r ".mp4" ++ globRootExt r ".webm" ++ globRootExt r ".mov"

/-- The full candidate list accumulated over all roots, in root order. -/
def candidates (roots : List Root) : List MediaFile :=
  match roots with
  | [] => []
  | r :: rs => globRoot r ++ candidates rs

/-- One step of selecting the most recently modified candidate.  Keeping the
earlier element on ties mirrors `cand.sort(key=mtime, reverse=True)` followed
by `cand[0]`: Python's sort is stable, so among equal mtimes the first
element in original order wins. -/
def pickNewer (best : Option MediaFile) (x : MediaFile) : Option MediaFile :=
  match best with
  | none => some x
  | some b => if b.mtime < x.mtime then some x else some b

/-- From the source, `newest_video(paths)`: collect all media candidates
under all roots and return the most recently modified one, or `none` when
there is no candidate.  The function takes no modification-time floor. -/
def newest_video (roots : List Root) : Option MediaFile :=
  (candidates roots).foldl pickNewer none

/-- Modelled from the spec: `findLatest(searchRoots, minModTime?)` as §4.4
describes it, including the minimum-modification-time floor ("filters out any
whose modification time precedes minModTime when supplied") that is absent
from the source function `newest_video`. -/
def findLatest_spec (roots : List Root) (minModTime : Option Nat) : Option MediaFile :=
  ((candidates roots).filter (fun f =>
    match minModTime with
    | some t => decide (t ≤ f.mtime)
    | none => true)).foldl pickNewer none

/-- The environment variables the handler reads (`os.getenv`); `none` models
an unset variable.  A set-but-empty variable is falsy in every use the source
makes of these values, which `oTruthy` below accounts for. -/
structure Env where
  vercel_blob_base : Option String := none
  blob_base : Option String := none
  vercel_blob_proxy_url : Option String := none
  vercel_blob_rw_token : Option String := none
  vercel_blob_read_write_token : Option String := none
  vercel_blob_token : Option String := none
  vercel_blob_public_base : Option String := none
  cn_model_name : Option String := none
  cn_module_name : Option String := none
deriving Repr

/-- Python truthiness of an optional string: `None` and `""` are falsy. -/
def oTruthy (a : Option String) : Option String :=
  match a with
  | some s => if s == "" then none else some s
  | none => none

/-- Python `a or b` on two optional strings, normalised so that a falsy
result is `none`. -/
def pyOrO (a b : Option String) : Option String :=
  match oTruthy a with
  | some s => some s
  | none => oTruthy b

/-- Python `a or d` with a string literal default `d`. -/
def pyOr (a : Option String) (d : String) : String :=
  match oTruthy a with
  | some s => s
  | none => d

/-- The token chain of `upload_to_vercel_blob`:
`VERCEL_BLOB_RW_TOKEN or VERCEL_BLOB_READ_WRITE_TOKEN or VERCEL_BLOB_TOKEN`. -/
def tokenOf (env : Env) : Option String :=
  pyOrO (pyOrO env.vercel_blob_rw_token env.vercel_blob_read_write_token) env.vercel_blob_token

/-- An HTTP response as the uploader observes it: status code, body text,
whether the content-type starts with `application/json`, and the outcome of
`r.json()` (`Except.error` models a raised JSON decode error; on success, the
optional value of the body's `"url"` field). -/
structure Resp where
  status : Nat
  text : String
  contentTypeJson : Bool
  jsonResult : Except String (Option String)
deriving Repr

/-- The outcome of one network request: a response, or a raised exception
(connection errors and the like) whose `str(e)` is the message. -/
inductive HttpTry where
  | resp (r : Resp)
  | exn (msg : String)
deriving Repr

/-- The outcomes the network would hand back for each request the uploader
can make, passed in explicitly (the request is only actually issued if the
uploader reaches that attempt; the returned call list records which ones
were issued). -/
structure NetOutcomes where
  proxy : HttpTry := .exn "unreached"
  put : HttpTry := .exn "unreached"
  putSlash : HttpTry := .exn "unreached"
deriving Repr

/-- One entry of the `attempts` diagnostics list. -/
structure Attempt where
  method : String
  status : Option Nat := none
  error : Option String := none
  body_tail : Option String := none
deriving Repr, DecidableEq

/-- The remediation hints dict returned with `all_attempts_failed`. -/
def suggestHints : List (String × String) :=
  [("ensure_base", "Set VERCEL_BLOB_BASE=https://api.blob.vercel-storage.com"),
   ("ensure_token", "Use a Read-Write token (VERCEL_BLOB_RW_TOKEN)"),
   ("proxy", "Set VERCEL_BLOB_PROXY_URL to a Vercel API route if DNS resolution keeps failing")]

/-- The result dict of `upload_to_vercel_blob`; `none` fields model keys that
are absent from the returned dict. -/
structure UploadResult where
  ok : Bool
  reason : Option String := none
  url : Option String := none
  key : Option String := none
  via : Option String := none
  attempts : Option (List Attempt) := none
  suggest : Option (List (String × String)) := none
deriving Repr

def hexDigit (n : Nat) : Char :=
  if n < 10 then Char.ofNat (48 + n) else Char.ofNat (55 + n)

/-- Percent-encode one character as `requests.utils.quote(..., safe='')`
does (ASCII range; the keys built here are ASCII). -/
def quoteChar (c : Char) : String :=
  if c.isAlphanum || c == '-' || c == '_' || c == '.' || c == '~' then
    String.singleton c
  else
    "%" ++ String.singleton (hexDigit (c.toNat / 16 % 16)) ++ String.singleton (hexDigit (c.toNat % 16))

/-- `requests.utils.quote(key, safe='')`. -/
def urlQuote (s : String) : String :=
  String.join (s.data.map quoteChar)

/-- Python `s.rstrip(c)` for a single character. -/
def rstrip (s : String) (c : Char) : String :=
  ⟨(s.data.reverse.dropWhile (fun x => x == c)).reverse⟩

/-- The proxy attempt of `upload_to_vercel_blob` (a POST to the configured
proxy URL): 200/201 is a success, whose `url` comes from `r.json()["url"]`
when the response declares JSON (a JSON decode error is caught by the
enclosing `except` and recorded as an error attempt) and from the raw body
text otherwise; any other status is recorded with its code and a 400-char
body tail; a raised request exception is recorded with its message. -/
def proxyStep (key : String) (t : HttpTry) : Sum Attempt UploadResult :=
  match t with
  | .exn m => .inl {method := "proxy", error := some m}
  | .resp r =>
    if r.status == 200 || r.status == 201 then
      if r.contentTypeJson then
        match r.jsonResult with
        | .ok u => .inr {ok := true, url := u, key := some key, via := some "proxy"}
        | .error m => .inl {method := "proxy", error := some m}
      else .inr {ok := true, url := some r.text, key := some key, via := some "proxy"}
    else .inl {method := "proxy", status := some r.status, body_tail := some (_tail r.text 400)}

/-- The success result of one PUT-variant attempt: the body's `url` is taken
from `r.json()` (falling back to the raw text when JSON decoding fails, which
the source catches locally), then to the configured public base joined with
the key, then to the request URL itself. -/
def putSuccess (reqUrl key : String) (public_base : Option String) (r : Resp) : UploadResult :=
  let body_url : Option String :=
    match r.jsonResult with
    | .ok u => u
    | .error _ => some r.text
  let url_out : Option String :=
    match oTruthy body_url with
    | some u => some u
    | none =>
      match public_base with
      | some pb => some (rstrip pb '/' ++ "/" ++ key)
      | none => none
  {ok := true, url := some (url_out.getD reqUrl), key := some key, via := some "api"}

/-- One iteration of the PUT loop of `upload_to_vercel_blob`: 200/201 is a
success; other statuses and raised exceptions are recorded as failed
attempts. -/
def putStep (variantName reqUrl key : String) (public_base : Option String) (t : HttpTry) :
    Sum Attempt UploadResult :=
  match t with
  | .exn m => .inl {method := variantName, error := some m}
  | .resp r =>
    if r.status == 200 || r.status == 201 then
      .inr (putSuccess reqUrl key public_base r)
    else .inl {method := variantName, status := some r.status, body_tail := some (_tail r.text 400)}

/-- The tail of `upload_to_vercel_blob` after the proxy attempt: the token
precondition, then the two PUT variants in order, then the
`all_attempts_failed` result carrying every recorded attempt and the
remediation hints. -/
def upload_direct (api_base : String) (public_base : Option String) (token : Option String)
    (key : String) (net : NetOutcomes) (atts : List Attempt) (calls : List String) :
    UploadResult × List String :=
  match token with
  | none => ({ok := false, reason := some "missing_env", attempts := some atts}, calls)
  | some _ =>
    let url1 := rstrip api_base '/' ++ "/?pathname=" ++ urlQuote key
    let url2 := rstrip api_base '/' ++ "/?pathname=/" ++ urlQuote key
    match putStep "PUT" url1 key public_base net.put with
    | .inr res => (res, calls ++ ["PUT"])
    | .inl a1 =>
      match putStep "PUT-leading-slash" url2 key public_base net.putSlash with
      | .inr res => (res, calls ++ ["PUT", "PUT-leading-slash"])
      | .inl a2 =>
        ({ok := false, reason := some "all_attempts_failed",
          attempts := some (atts ++ [a1, a2]), suggest := some suggestHints},
         calls ++ ["PUT", "PUT-leading-slash"])

/-- From the source, `upload_to_vercel_blob(file_path, run_id)`.
`fileExists` is `path.exists()`; `fileName` is `path.name`.  The second
component of the result is the ordered list of network requests actually
issued, so that fail-fast claims ("no network activity") are statable. -/
def upload_to_vercel_blob (env : Env) (fileExists : Bool) (fileName run_id : String)
    (net : NetOutcomes) : UploadResult × List String :=
  if fileExists then
    let api_base := pyOr (pyOrO env.vercel_blob_base env.blob_base) "https://api.blob.vercel-storage.com"
    let public_base := oTruthy env.vercel_blob_public_base
    let key := "runs/" ++ run_id ++ "/" ++ fileName
    match oTruthy env.vercel_blob_proxy_url with
    | none => upload_direct api_base public_base (tokenOf env) key net [] []
    | some _ =>
      match proxyStep key net.proxy with
      | .inr res => (res, ["proxy"])
      | .inl a => upload_direct api_base public_base (tokenOf env) key net [a] ["proxy"]
  else ({ok := false, reason := some "file_missing"}, [])

/-- The preferred ControlNet model name of `_resolve_cn`:
`os.getenv("CN_MODEL_NAME") or model_in or "control_sd15_animal_openpose_fp16"`
(note that the environment override comes before the requested name). -/
def preferModel (env : Env) (model_in : Option String) : String :=
  pyOr (pyOrO env.cn_model_name model_in) "control_sd15_animal_openpose_fp16"

/-- The preferred ControlNet module name of `_resolve_cn`:
`os.getenv("CN_MODULE_NAME") or module_in or "animal_openpose"`. -/
def preferModule (env : Env) (module_in : Option String) : String :=
  pyOr (pyOrO env.cn_module_name module_in) "animal_openpose"

/-- From the source, `_resolve_cn(model_in, module_in)`.  The live lists the
source fetches through `_get_cn_lists()` (HTTP GETs whose failures leave the
sets empty) are passed in as `avail_models` / `avail_modules`; an empty list
models an unreachable engine.  When the live list is non-empty and the
preferred name is absent from it, the source scans the fixed candidate tuple
(starting with the preferred name itself) and keeps the preferred name when
no candidate is in the list. -/
def _resolve_cn (env : Env) (model_in module_in : Option String)
    (avail_models avail_modules : List String) : String × String :=
  let pm := preferModel env model_in
  let pmod := preferModule env module_in
  let model :=
    if !avail_models.isEmpty && !(avail_models.contains pm) then
      (([pm, "control_sd15_animal_openpose_fp16", "control_v11p_sd15_openpose"].find?
          (fun c => avail_models.contains c)).getD pm)
    else pm
  let resolvedModule :=
    if !avail_modules.isEmpty && !(avail_modules.contains pmod) then
      (([pmod, "animal_openpose", "openpose_full", "openpose"].find?
          (fun c => avail_modules.contains c)).getD pmod)
    else pmod
  (model, resolvedModule)

/-- Modelled from the spec: resolution of the model identifier with the
ordered preference list of §4.2 — "requested name → environment override →
known-good default" applied against the live list when it is available, the
requested/default name accepted unresolved when it is not. -/
def resolve_model_spec (requested envOverride : Option String) (dflt : String)
    (avail : List String) : String :=
  if avail.isEmpty then requested.getD dflt
  else
    match requested with
    | some r =>
      if avail.contains r then r
      else
        match envOverride with
        | some e => if avail.contains e then e else dflt
        | none => dflt
    | none =>
      match envOverride with
      | some e => if avail.contains e then e else dflt
      | none => dflt

/-- The `controlnet` sub-mapping of the request, with the per-field defaults
`cn.get(...)` applies; `enabled` carries `bool(cn.get("enabled", False))`,
schedule-typed fields carry the raw Python value handed to `S`. -/
structure CNInput where
  enabled : Bool := false
  vid_path : Option String := none
  model : Option String := none
  module : Option String := none
  weight : PyVal := .pnone
  weight_schedule_series : PyVal := .pnone
  guidance_start : PyVal := .pnone
  guidance_end : PyVal := .pnone
  processor_res : PyVal := .pnone
  annotator_resolution : PyVal := .pnone
  threshold_a : PyVal := .pnone
  threshold_b : PyVal := .pnone
  guess_mode : PyVal := .pnone
  resize_mode : String := "Inner Fit (Scale to Fit)"
  control_mode : String := "Balanced"
  low_vram : Bool := false
  pixel_perfect : Bool := true
deriving Repr

/-- The inbound request mapping, restricted to the keys the handler reads
(the dict is free-form; `extra` stands for all other caller-supplied keys —
for instance requested pan/zoom/rotation values — none of which the code ever
reads).  Numeric fields carry well-typed values (`int()`/`float()` coercion
succeeded); float-typed fields carry the Python `str()` rendering. -/
structure JobRequest where
  prompt : Option String := none
  negative_prompt : Option String := none
  negative : Option String := none
  width : Option Int := none
  height : Option Int := none
  fps : Option Int := none
  seconds : Option Int := none
  max_frames : Option Int := none
  seed : Option Int := none
  init_image : Option String := none
  image_url : Option String := none
  image_strength : Option String := none
  steps : Option Int := none
  cfg_scale : Option String := none
  image_strength_schedule : PyVal := .pnone
  strength_schedule : PyVal := .pnone
  controlnet : Option CNInput := none
  pose_video_path : Option String := none
  upload : Bool := false
  debug : Bool := false
  extra : List (String × String) := []
deriving Repr

/-- A value stored in the `controlnet_args` dict: a boolean or a string. -/
inductive CNVal where
  | b (v : Bool)
  | s (v : String)
deriving Repr, DecidableEq

/-- The fixed keys the `controlnet_args` dict literal always contains, in
source order (lines 174-196 of `rp_handler.py`). -/
def cnRequiredKeys : List String :=
  ["cn_1_enabled", "cn_1_model", "cn_1_module", "cn_1_weight",
   "cn_1_weight_schedule_series", "cn_1_guidance_start", "cn_1_guidance_end",
   "cn_1_processor_res", "cn_1_annotator_resolution", "cn_1_threshold_a",
   "cn_1_threshold_b", "cn_1_guess_mode", "cn_1_resize_mode",
   "cn_1_control_mode", "cn_1_low_vram", "cn_1_pixel_perfect",
   "cn_1_loopback_mode", "cn_1_overwrite_frames", "cn_1_invert_image",
   "cn_1_rgbbgr_mode", "cn_1_mask_vid_path"]

/-- `cn.get("vid_path") or inp.get("pose_video_path") or ""`. -/
def cnVidPath (inp : JobRequest) : String :=
  pyOr (pyOrO (inp.controlnet.getD {}).vid_path inp.pose_video_path) ""

/-- The `controlnet_args` dict built by `build_deforum_job`, as an ordered
key/value list; `cn_1_vid_path` is appended exactly when a driving-video path
was supplied. -/
def controlnet_args_of (env : Env) (avail_models avail_modules : List String)
    (inp : JobRequest) : List (String × CNVal) :=
  let cn := inp.controlnet.getD {}
  let rm := _resolve_cn env cn.model cn.module avail_models avail_modules
  let base : List (String × CNVal) :=
    [("cn_1_enabled", .b cn.enabled),
     ("cn_1_model", .s rm.1),
     ("cn_1_module", .s rm.2),
     ("cn_1_weight", .s (_sched cn.weight "0:(0.95)")),
     ("cn_1_weight_schedule_series", .s (_sched cn.weight_schedule_series "0:(1.0)")),
     ("cn_1_guidance_start", .s (_sched cn.guidance_start "0:(0.0)")),
     ("cn_1_guidance_end", .s (_sched cn.guidance_end "0:(1.0)")),
     ("cn_1_processor_res", .s (_sched cn.processor_res "0:(640)")),
     ("cn_1_annotator_resolution", .s (_sched cn.annotator_resolution "0:(640)")),
     ("cn_1_threshold_a", .s (_sched cn.threshold_a "0:(64)")),
     ("cn_1_threshold_b", .s (_sched cn.threshold_b "0:(64)")),
     ("cn_1_guess_mode", .s (_sched cn.guess_mode "0:(0)")),
     ("cn_1_resize_mode", .s cn.resize_mode),
     ("cn_1_control_mode", .s cn.control_mode),
     ("cn_1_low_vram", .b cn.low_vram),
     ("cn_1_pixel_perfect", .b cn.pixel_perfect),
     ("cn_1_loopback_mode", .b false),
     ("cn_1_overwrite_frames", .b true),
     ("cn_1_invert_image", .b false),
     ("cn_1_rgbbgr_mode", .b false),
     ("cn_1_mask_vid_path", .s "")]
  if cnVidPath inp == "" then base else base ++ [("cn_1_vid_path", .s (cnVidPath inp))]

/-- The engine-ready job dict built by `build_deforum_job`.  The duplicate
prompt keys the source emits for cross-version compatibility (`prompts` /
`prompt`, `negative_prompts` / `negative_prompt`, all holding the same frame-0
text) are collapsed into `prompt0` / `negative0`.  `controlnet_args` is an
`Option` so that presence of that key in the dict is statable; the builder
always sets it. -/
structure JobSpec where
  prompt0 : String
  negative0 : String
  seed : Int
  max_frames : Int
  W : Int
  H : Int
  fps : Int
  sampler : String
  steps : Int
  cfg_scale : String
  animation_mode : String
  angle : String
  zoom : String
  translation_x : String
  translation_y : String
  translation_z : String
  use_init : Bool
  init_image : String
  image_strength_schedule : String
  strength_schedule : String
  use_parseq : Bool
  make_video : Bool
  save_video : Bool
  outdir : String
  outdir_video : String
  controlnet_args : Option (List (String × CNVal))
deriving Repr

/-- From the source, `build_deforum_job(inp)`; the live CN lists used by the
embedded `_resolve_cn` call are passed through. -/
def build_deforum_job (env : Env) (avail_models avail_modules : List String)
    (inp : JobRequest) : JobSpec :=
  let prompt := inp.prompt.getD "photorealistic cat dancing on the spot, consistent anatomy, one head, four legs, one tail, natural balance"
  let negative := pyOr (pyOrO inp.negative_prompt inp.negative) "text, letters, logo, watermark, border, poster, extra limbs, deformed, low quality, blurry"
  let fps := inp.fps.getD 12
  let seconds := inp.seconds.getD 8
  let init_image := pyOr (pyOrO inp.init_image inp.image_url) ""
  let image_strength := inp.image_strength.getD "0.6"
  { prompt0 := prompt,
    negative0 := negative,
    seed := inp.seed.getD 42,
    max_frames := inp.max_frames.getD (seconds * fps),
    W := inp.width.getD 512,
    H := inp.height.getD 512,
    fps := fps,
    sampler := "Euler a",
    steps := inp.steps.getD 28,
    cfg_scale := inp.cfg_scale.getD "6.5",
    animation_mode := "2D",
    angle := "0:(0)",
    zoom := "0:(1.0)",
    translation_x := "0:(0)",
    translation_y := "0:(0)",
    translation_z := "0:(0)",
    use_init := init_image != "",
    init_image := init_image,
    image_strength_schedule := _sched inp.image_strength_schedule ("0:(" ++ image_strength ++ ")"),
    strength_schedule := _sched inp.strength_schedule ("0:(" ++ image_strength ++ ")"),
    use_parseq := false,
    make_video := true,
    save_video := true,
    outdir := "/workspace/outputs/deforum",
    outdir_video := "/workspace/outputs/deforum",
    controlnet_args := some (controlnet_args_of env avail_models avail_modules inp) }

/-- What the engine subprocess does: run to completion with an exit code and
combined output, exceed the 3600s timeout (`subprocess.run` then raises
`subprocess.TimeoutExpired`), or raise some other `OSError`-like exception. -/
inductive ProcOutcome where
  | completed (retcode : Int) (stdout : String)
  | timedOut
  | raised (msg : String)
deriving Repr

/-- An exception escaping `run_via_launch` (the source has no try/except
around `subprocess.run`, so these propagate to the caller). -/
inductive ExecError where
  | timeoutExpired
  | exception (msg : String)
deriving Repr, DecidableEq

/-- The dict `run_via_launch` returns on normal completion. -/
structure LaunchResult where
  retcode : Int
  tail : String
  outdir : String
deriving Repr

/-- From the source, `run_via_launch(job, timings)`.  The first component is
the returned dict, or the exception that propagates (`Except.error`); the
second is the file system after the call: `tempfile.NamedTemporaryFile(...,
delete=False)` creates `cfg_path` and no code path ever deletes it.  Timing
records are wall-clock effects and are not modelled. -/
def run_via_launch (fs : List String) (cfg_path : String) (job : JobSpec)
    (outcome : ProcOutcome) : Except ExecError LaunchResult × List String :=
  let fs2 := cfg_path :: fs
  match outcome with
  | .completed rc out => (.ok {retcode := rc, tail := _tail out 4000, outdir := job.outdir}, fs2)
  | .timedOut => (.error .timeoutExpired, fs2)
  | .raised m => (.error (.exception m), fs2)

/-- The `result` dict of the handler's response.  Wall-clock fields
(`timings`, `total_elapsed_ms`), the environment-visibility booleans
(`env_seen`), and the debug copies of the CN block and live CN lists
(`debug_cn_keys`, `debug_cn_values`, `debug_available_cn_models`,
`debug_available_cn_modules`) are diagnostic echoes not modelled here;
`launch_tail` is `none` when the key is absent from the dict. -/
structure Response where
  ok : Bool
  mode : String
  run_id : String
  local_outdir : String
  picked_file : Option String
  uploaded : UploadResult
  launch_tail : Option String
deriving Repr

/-- The handler's return value: `{"status": ..., "result": ...}`. -/
structure HandlerOut where
  status : String
  result : Response
deriving Repr

/-- From the source, `handler(event)`.  Explicit-effect parameters: `run_id`
is the generated `uuid4` fragment, `cfg_path` the temp-file name, `fs0` the
file system handed to `run_via_launch`, `roots` the contents of the three
fixed output directories scanned by `newest_video` (in source order), `net`
the upload network outcomes, `outcome` what the engine subprocess does.  An
`Except.error` result is an exception propagating out of the handler (the
source wraps nothing in try/except).  The upload call passes `path.exists()
= true` because the picked file was just found on disk by `newest_video`. -/
def handler (env : Env) (inp : JobRequest) (avail_models avail_modules : List String)
    (run_id cfg_path : String) (fs0 : List String) (roots : List Root)
    (net : NetOutcomes) (outcome : ProcOutcome) : Except ExecError HandlerOut :=
  let job := build_deforum_job env avail_models avail_modules inp
  match (run_via_launch fs0 cfg_path job outcome).1 with
  | .error e => .error e
  | .ok res =>
    let picked := newest_video roots
    let uploaded : UploadResult :=
      match picked, inp.upload with
      | some f, true => (upload_to_vercel_blob env true f.path run_id net).1
      | _, _ => {ok := false, reason := some "skipped"}
    let ok := (res.retcode == 0) && picked.isSome
    .ok {status := if ok then "COMPLETED" else "FAILED",
         result := {ok := ok,
                    mode := "cli-launch",
                    run_id := run_id,
                    local_outdir := res.outdir,
                    picked_file := picked.map (fun f => f.path),
                    uploaded := uploaded,
                    launch_tail := if ok then none else some res.tail}}

/-- The `result.ok` field of a handler response, when one was returned. -/
def okOf (e : Except ExecError HandlerOut) : Option Bool :=
  match e with
  | .ok h => some h.result.ok
  | .error _ => none

/-- The terminal `status` field of a handler response, when one was
returned. -/
def statusOf (e : Except ExecError HandlerOut) : Option String :=
  match e with
  | .ok h => some h.status
  | .error _ => none

/-- The `launch_tail` field of a handler response, when one was returned
(`some none`: a response without the key). -/
def tailOf (e : Except ExecError HandlerOut) : Option (Option String) :=
  match e with
  | .ok h => some h.result.launch_tail
  | .error _ => none

/-- Diagnostic adequacy of one recorded attempt: it carries a status code or
an error text, and any recorded body tail is bounded by 400 characters. -/
def attemptDiagOk (a : Attempt) : Prop :=
  (a.status.isSome = true ∨ a.error.isSome = true)
  ∧ ∀ bt, a.body_tail = some bt → bt.length ≤ 400

/-- Success of one PUT-variant attempt, as `upload_direct` classifies it. -/
def putTryOk (t : HttpTry) : Bool :=
  match t with
  | .resp r => r.status == 200 || r.status == 201
  | .exn _ => false

/-- Success of the proxy attempt: a 2xx response whose JSON body (when the
response declares JSON) decodes without raising. -/
def proxyTryOk (t : HttpTry) : Bool :=
  match t with
  | .resp r =>
    (r.status == 200 || r.status == 201)
      && (!r.contentTypeJson || (match r.jsonResult with | .ok _ => true | .error _ => false))
  | .exn _ => false

lemma foldl_pickNewer_some (l : List MediaFile) (b : MediaFile) :
    ∃ r, l.foldl pickNewer (some b) = some r ∧ (r = b ∨ r ∈ l)
      ∧ b.mtime ≤ r.mtime ∧ ∀ g ∈ l, g.mtime ≤ r.mtime := by
  induction l generalizing b with
  | nil => exact ⟨b, rfl, Or.inl rfl, le_refl _, by simp⟩
  | cons x xs ih =>
    by_cases h : b.mtime < x.mtime
    · obtain ⟨r, hr, hmem, hle, hall⟩ := ih x
      refine ⟨r, ?_, ?_, ?_, ?_⟩
      · simpa [pickNewer, h] using hr
      · rcases hmem with h1 | h1
        · exact Or.inr (h1 ▸ List.mem_cons_self x xs)
        · exact Or.inr (List.mem_cons_of_mem x h1)
      · exact le_of_lt (lt_of_lt_of_le h hle)
      · intro g hg
        rcases List.mem_cons.mp hg with h1 | h1
        · exact h1 ▸ hle
        · exact hall g h1
    · obtain ⟨r, hr, hmem, hle, hall⟩ := ih b
      refine ⟨r, ?_, ?_, hle, ?_⟩
      · simpa [pickNewer, h] using hr
      · rcases hmem with h1 | h1
        · exact Or.inl h1
        · exact Or.inr (List.mem_cons_of_mem x h1)
      · intro g hg
        rcases List.mem_cons.mp hg with h1 | h1
        · exact h1 ▸ le_trans (le_of_not_lt h) hle
        · exact hall g h1

lemma foldl_pickNewer_none_iff (l : List MediaFile) :
    l.foldl pickNewer none = none ↔ l = [] := by
  cases l with
  | nil => simp
  | cons x xs =>
    obtain ⟨r, hr, -, -, -⟩ := foldl_pickNewer_some xs x
    simp [pickNewer, hr]

lemma length_tail_le_400 (s : String) : (_tail s 400).length ≤ 400 := by
  show (String.mk (s.data.drop (s.data.length - 400))).length ≤ 400
  show (s.data.drop (s.data.length - 400)).length ≤ 400
  rw [List.length_drop]
  omega


lemma putStep_ok (v u k : String) (pb : Option String) (t : HttpTry)
    (h : putTryOk t = true) :
    ∃ res, putStep v u k pb t = .inr res ∧ res.ok = true ∧ res.via = some "api" := by
  cases t with
  | exn m => simp [putTryOk] at h
  | resp r =>
    simp only [putTryOk] at h
    exact ⟨putSuccess u k pb r, by simp [putStep, h], rfl, rfl⟩

lemma putStep_fail (v u k : String) (pb : Option String) (t : HttpTry)
    (h : putTryOk t = false) :
    ∃ a, putStep v u k pb t = .inl a ∧ a.method = v ∧ attemptDiagOk a := by
  cases t with
  | exn m =>
    refine ⟨{method := v, error := some m}, rfl, rfl, Or.inr rfl, ?_⟩
    intro bt hbt
    simp at hbt
  | resp r =>
    simp only [putTryOk] at h
    refine ⟨{method := v, status := some r.status, body_tail := some (_tail r.text 400)},
      by simp [putStep, h], rfl, Or.inl rfl, ?_⟩
    intro bt hbt
    simp only [Option.some.injEq] at hbt
    exact hbt ▸ length_tail_le_400 r.text

lemma proxyStep_ok (k : String) (t : HttpTry) (h : proxyTryOk t = true) :
    ∃ res, proxyStep k t = .inr res ∧ res.ok = true ∧ res.via = some "proxy" := by
  cases t with
  | exn m => simp [proxyTryOk] at h
  | resp r =>
    simp only [proxyTryOk, Bool.and_eq_true] at h
    obtain ⟨h1, h2⟩ := h
    cases hct : r.contentTypeJson with
    | false =>
      exact ⟨{ok := true, url := some r.text, key := some k, via := some "proxy"},
        by simp [proxyStep, h1, hct], rfl, rfl⟩
    | true =>
      rw [hct] at h2
      cases hj : r.jsonResult with
      | ok u =>
        exact ⟨{ok := true, url := u, key := some k, via := some "proxy"},
          by simp [proxyStep, h1, hct, hj], rfl, rfl⟩
      | error m =>
        rw [hj] at h2
        simp at h2

lemma proxyStep_fail (k : String) (t : HttpTry) (h : proxyTryOk t = false) :
    ∃ a, proxyStep k t = .inl a ∧ a.method = "proxy" ∧ attemptDiagOk a := by
  cases t with
  | exn m =>
    refine ⟨{method := "proxy", error := some m}, rfl, rfl, Or.inr rfl, ?_⟩
    intro bt hbt
    simp at hbt
  | resp r =>
    simp only [proxyTryOk, Bool.and_eq_false_iff] at h
    by_cases h1 : (r.status == 200 || r.status == 201) = true
    · have h2 : (!r.contentTypeJson || (match r.jsonResult with | .ok _ => true | .error _ => false)) = false := by
        rcases h with h | h
        · rw [h1] at h; simp at h
        · exact h
      cases hct : r.contentTypeJson with
      | false => rw [hct] at h2; simp at h2
      | true =>
        rw [hct] at h2
        cases hj : r.jsonResult with
        | ok u => rw [hj] at h2; simp at h2
        | error m =>
          refine ⟨{method := "proxy", error := some m},
            by simp [proxyStep, h1, hct, hj], rfl, Or.inr rfl, ?_⟩
          intro bt hbt
          simp at hbt
    · rw [Bool.not_eq_true] at h1
      refine ⟨{method := "proxy", status := some r.status, body_tail := some (_tail r.text 400)},
        by simp [proxyStep, h1], rfl, Or.inl rfl, ?_⟩
      intro bt hbt
      simp only [Option.some.injEq] at hbt
      exact hbt ▸ length_tail_le_400 r.text

lemma upload_direct_spec (ab : String) (pb : Option String) (tk key : String)
    (net : NetOutcomes) (atts : List Attempt) (calls : List String) :
    (upload_direct ab pb (some tk) key net atts calls).2
        = calls ++ (if putTryOk net.put then ["PUT"] else ["PUT", "PUT-leading-slash"])
    ∧ (upload_direct ab pb (some tk) key net atts calls).1.ok
        = (putTryOk net.put || putTryOk net.putSlash)
    ∧ ((upload_direct ab pb (some tk) key net atts calls).1.ok = true →
        (upload_direct ab pb (some tk) key net atts calls).1.via = some "api")
    ∧ ((upload_direct ab pb (some tk) key net atts calls).1.ok = false →
        (upload_direct ab pb (some tk) key net atts calls).1.reason = some "all_attempts_failed"
        ∧ (upload_direct ab pb (some tk) key net atts calls).1.suggest = some suggestHints
        ∧ ∃ a1 a2, (upload_direct ab pb (some tk) key net atts calls).1.attempts
              = some (atts ++ [a1, a2])
            ∧ a1.method = "PUT" ∧ a2.method = "PUT-leading-slash"
            ∧ attemptDiagOk a1 ∧ attemptDiagOk a2) := by
  cases h1 : putTryOk net.put with
  | true =>
    obtain ⟨res, e1, ro, rv⟩ :=
      putStep_ok "PUT" (rstrip ab '/' ++ "/?pathname=" ++ urlQuote key) key pb net.put h1
    refine ⟨?_, ?_, ?_, ?_⟩ <;>
      simp [upload_direct, e1, ro, rv]
  | false =>
    obtain ⟨a1, e1, m1, d1⟩ :=
      putStep_fail "PUT" (rstrip ab '/' ++ "/?pathname=" ++ urlQuote key) key pb net.put h1
    cases h2 : putTryOk net.putSlash with
    | true =>
      obtain ⟨res, e2, ro, rv⟩ :=
        putStep_ok "PUT-leading-slash" (rstrip ab '/' ++ "/?pathname=/" ++ urlQuote key)
          key pb net.putSlash h2
      refine ⟨?_, ?_, ?_, ?_⟩ <;>
        simp [upload_direct, e1, e2, ro, rv]
    | false =>
      obtain ⟨a2, e2, m2, d2⟩ :=
        putStep_fail "PUT-leading-slash" (rstrip ab '/' ++ "/?pathname=/" ++ urlQuote key)
          key pb net.putSlash h2
      refine ⟨?_, ?_, ?_, ?_⟩
      · simp [upload_direct, e1, e2]
      · simp [upload_direct, e1, e2]
      · intro hok
        simp [upload_direct, e1, e2] at hok
      · intro hok
        refine ⟨by simp [upload_direct, e1, e2], by simp [upload_direct, e1, e2],
          a1, a2, by simp [upload_direct, e1, e2], m1, m2, d1, d2⟩

/-- C7, counterexample.  The claim asserts that a string already containing a
colon and a balanced parenthesis pair is returned unchanged; the source
returns its stripped form instead.  The input string contains a colon, an
opening and a closing parenthesis (so the claim demands it back verbatim),
yet the normalizer returns it with the surrounding whitespace removed. -/
theorem sched_trims_preformatted :
    _sched (.pstr " 0:(1) ") "0:(9)" = "0:(1)"
    ∧ (" 0:(1) " : String).data.contains ':' = true
    ∧ (" 0:(1) " : String).data.contains '(' = true
    ∧ (" 0:(1) " : String).data.contains ')' = true
    ∧ (" 0:(1) " : String) ≠ "0:(1)" := by
  refine ⟨rfl, rfl, rfl, rfl, ?_⟩
  decide

/-- C7, amended.  Absent or empty inputs return the caller default verbatim;
a numeric value returns exactly "0:(" ++ its str() rendering ++ ")"; a
non-empty string whose STRIPPED form contains a colon, an opening and a
closing parenthesis (mere presence — the source checks no balancing) is
returned in stripped form, not unchanged; any other string is wrapped as
"0:(" ++ stripped ++ ")". -/
theorem sched_normalization (d rep s : String) (hs : s ≠ "") :
    _sched .pnone d = d
    ∧ _sched (.pstr "") d = d
    ∧ _sched (.pnum rep) d = "0:(" ++ rep ++ ")"
    ∧ (((pyStrip s).data.contains ':' && (pyStrip s).data.contains '('
          && (pyStrip s).data.contains ')') = true
        → _sched (.pstr s) d = pyStrip s)
    ∧ (((pyStrip s).data.contains ':' && (pyStrip s).data.contains '('
          && (pyStrip s).data.contains ')') = false
        → _sched (.pstr s) d = "0:(" ++ pyStrip s ++ ")") := by
  refine ⟨rfl, rfl, rfl, fun h => ?_, fun h => ?_⟩
  · have hb : (s == "") = false := by simp [hs]
    simp only [_sched, hb]
    simp [h]
    intro hno
    exfalso
    simp only [List.contains, List.elem_eq_mem, decide_eq_true_eq, Bool.and_eq_true] at h
    exact hno h.1.1 h.1.2 h.2
  · have hb : (s == "") = false := by simp [hs]
    simp only [_sched, hb]
    simp [h]
    intro h1 h2 h3
    simp [List.contains, h1, h2, h3] at h

/-- C7, witness for the amended theorem at a concrete input. -/
theorem sched_normalization_witness :
    _sched (.pstr "  a  ") "0:(7)" = "0:(a)" :=
  (sched_normalization "0:(7)" "1" "  a  " (by decide)).2.2.2.2 rfl

/-- C8, counterexample.  The claim gives the artifact locator an optional
minimum-modification-time floor that excludes older files; the source
function `newest_video` takes no such parameter and cannot honour one: on a
single stale file the claimed locator (modelled from the spec as
`findLatest_spec`) must return none for floor 10, while the source locator
returns the stale file. -/
theorem locator_has_no_mod_time_floor :
    findLatest_spec [some [{path := "old.mp4", mtime := 5}]] (some 10) = none
    ∧ newest_video [some [{path := "old.mp4", mtime := 5}]]
        = some {path := "old.mp4", mtime := 5} := ⟨rfl, rfl⟩

/-- C8, amended (floor clause dropped: the source locator takes only the
ordered list of roots).  `newest_video` returns none exactly when no file
with a matching media extension exists under any root; any returned file is
a candidate of maximal modification time; and a non-existent root
contributes zero candidates without failing. -/
theorem newest_video_behavior (roots : List Root) :
    (newest_video roots = none ↔ candidates roots = [])
    ∧ (∀ f, newest_video roots = some f →
        f ∈ candidates roots ∧ ∀ g ∈ candidates roots, g.mtime ≤ f.mtime)
    ∧ newest_video (none :: roots) = newest_video roots := by
  refine ⟨foldl_pickNewer_none_iff (candidates roots), ?_, rfl⟩
  intro f hf
  unfold newest_video at hf
  cases hc : candidates roots with
  | nil => rw [hc] at hf; simp at hf
  | cons x xs =>
    rw [hc] at hf
    obtain ⟨r, hr, hmem, hle, hall⟩ := foldl_pickNewer_some xs x
    have hrx : (x :: xs).foldl pickNewer none = some r := by
      simpa [pickNewer] using hr
    rw [hf] at hrx
    cases Option.some.inj hrx
    constructor
    · rcases hmem with h1 | h1
      · exact h1 ▸ List.mem_cons_self x xs
      · exact List.mem_cons_of_mem x h1
    · intro g hg
      rcases List.mem_cons.mp hg with h1 | h1
      · exact h1 ▸ hle
      · exact hall g h1

/-- C8, witness for the amended theorem: two empty-contributing roots (one
non-existent, one empty) yield no artifact. -/
theorem newest_video_behavior_witness :
    newest_video [none, some []] = none :=
  (newest_video_behavior [none, some []]).1.mpr rfl

/-- C10.  The animation-transform fields of every built JobSpec are the
fixed static schedules angle "0:(0)", zoom "0:(1.0)" and the three
translations "0:(0)", whatever the request contains (the builder never reads
any pan/zoom/rotation input; `inp` here ranges over every request, including
any caller-supplied extra keys). -/
theorem transforms_are_static (env : Env) (am amod : List String) (inp : JobRequest) :
    (build_deforum_job env am amod inp).angle = "0:(0)"
    ∧ (build_deforum_job env am amod inp).zoom = "0:(1.0)"
    ∧ (build_deforum_job env am amod inp).translation_x = "0:(0)"
    ∧ (build_deforum_job env am amod inp).translation_y = "0:(0)"
    ∧ (build_deforum_job env am amod inp).translation_z = "0:(0)" :=
  ⟨rfl, rfl, rfl, rfl, rfl⟩

/-- C1, counterexample.  The claim says the controlnet block is entirely
absent from the JobSpec when the feature toggle is off; on a request with no
controlnet sub-mapping at all (toggle off), the built JobSpec nevertheless
carries the block, with cn_1_enabled set to false. -/
theorem controlnet_block_present_when_disabled :
    ((build_deforum_job {} [] [] {}).controlnet_args).isSome = true
    ∧ ((build_deforum_job {} [] [] {}).controlnet_args.getD []).lookup "cn_1_enabled"
        = some (CNVal.b false) := ⟨rfl, rfl⟩

/-- C1, amended.  The controlnet block of a built JobSpec is never absent and
never a partial subset: for every request it is present and its keys are
exactly the 21 fixed required keys, plus cn_1_vid_path exactly when a
driving-video path was supplied; the feature toggle only drives the value of
cn_1_enabled. -/
theorem controlnet_block_always_full (env : Env) (am amod : List String) (inp : JobRequest) :
    ∃ l, (build_deforum_job env am amod inp).controlnet_args = some l
      ∧ l.map Prod.fst
          = cnRequiredKeys ++ (if cnVidPath inp == "" then [] else ["cn_1_vid_path"])
      ∧ l.lookup "cn_1_enabled" = some (CNVal.b (inp.controlnet.getD {}).enabled) := by
  refine ⟨controlnet_args_of env am amod inp, rfl, ?_, ?_⟩
  · cases hv : cnVidPath inp == "" <;>
      simp [controlnet_args_of, hv, cnRequiredKeys]
  · cases hv : cnVidPath inp == "" <;>
      simp [controlnet_args_of, hv, List.lookup]

/-- C2.  For a run whose engine call completes with exit code rc, the
handler's overall flag equals (rc == 0 AND an artifact was found); the
terminal status is "COMPLETED" exactly when that flag holds, "FAILED"
otherwise; the execution diagnostic tail is included in the result exactly
when the run was not fully successful; and the upload network outcomes have
no effect on the flag. -/
theorem handler_overall_success (env : Env) (inp : JobRequest) (am amod : List String)
    (rid p : String) (fs0 : List String) (roots : List Root) (net net2 : NetOutcomes)
    (rc : Int) (sout : String) :
    okOf (handler env inp am amod rid p fs0 roots net (.completed rc sout))
        = some ((rc == 0) && (newest_video roots).isSome)
    ∧ statusOf (handler env inp am amod rid p fs0 roots net (.completed rc sout))
        = some (if (rc == 0) && (newest_video roots).isSome then "COMPLETED" else "FAILED")
    ∧ tailOf (handler env inp am amod rid p fs0 roots net (.completed rc sout))
        = some (if (rc == 0) && (newest_video roots).isSome then none else some (_tail sout 4000))
    ∧ okOf (handler env inp am amod rid p fs0 roots net (.completed rc sout))
        = okOf (handler env inp am amod rid p fs0 roots net2 (.completed rc sout)) :=
  ⟨rfl, rfl, rfl, rfl⟩

/-- C3, counterexample.  The claim says an engine timeout is returned as a
distinct sentinel status inside the structured result and not raised; in the
source, `subprocess.run(..., timeout=3600)` raises `subprocess.TimeoutExpired`
and nothing catches it, so at this concrete input both the executor and the
whole handler end in a propagating exception instead of returning a result. -/
theorem executor_timeout_raises :
    (run_via_launch [] "/tmp/cfg-a.json" (build_deforum_job {} [] [] {}) .timedOut).1
        = Except.error ExecError.timeoutExpired
    ∧ handler {} {} [] [] "r1" "/tmp/cfg-a.json" [] [] {} .timedOut
        = Except.error ExecError.timeoutExpired := ⟨rfl, rfl⟩

/-- C3, amended.  The failure classification exists but as raised exceptions,
not captured statuses: a completed engine call yields the structured result
with the exit code verbatim and a 4000-char output tail; a timeout raises the
distinct TimeoutExpired exception and any other process exception propagates
with its description — and both propagate out of the handler uncaught. -/
theorem executor_outcome_classification (fs : List String) (p : String) (job : JobSpec)
    (rc : Int) (sout m : String) (env : Env) (inp : JobRequest) (am amod : List String)
    (rid : String) (fs0 : List String) (roots : List Root) (net : NetOutcomes) :
    (run_via_launch fs p job (.completed rc sout)).1
        = Except.ok {retcode := rc, tail := _tail sout 4000, outdir := job.outdir}
    ∧ (run_via_launch fs p job .timedOut).1 = Except.error .timeoutExpired
    ∧ (run_via_launch fs p job (.raised m)).1 = Except.error (.exception m)
    ∧ handler env inp am amod rid p fs0 roots net .timedOut = Except.error .timeoutExpired
    ∧ handler env inp am amod rid p fs0 roots net (.raised m) = Except.error (.exception m) :=
  ⟨rfl, rfl, rfl, rfl, rfl⟩

/-- C4, counterexample.  The claim says the serialized temp file is deleted
before the executor returns on every exit path; the source creates it with
delete=False and never unlinks it, so after a successful run at this concrete
input the file is still on disk. -/
theorem temp_file_persists_concrete :
    "/tmp/cfg-b.json" ∈ (run_via_launch [] "/tmp/cfg-b.json"
      (build_deforum_job {} [] [] {}) (.completed 0 "")).2 :=
  List.mem_cons_self _ _

/-- C4, amended.  The temp file is never deleted: on every exit path
(success, non-zero exit, timeout, exception) it is still present in the file
system when `run_via_launch` returns. -/
theorem run_via_launch_keeps_temp_file (fs : List String) (p : String) (job : JobSpec)
    (o : ProcOutcome) : p ∈ (run_via_launch fs p job o).2 := by
  cases o <;> exact List.mem_cons_self _ _

/-- C9, counterexample.  The claim's fallback order is requested name →
environment override → known-good default; the source computes the preferred
name as environment override FIRST (`os.getenv("CN_MODEL_NAME") or model_in
or default`).  With the env override set to "envM", the requested name "reqM"
present in the live list, the claimed resolution (modelled from the spec as
`resolve_model_spec`) yields the requested "reqM", while the source yields
the env override "envM" — which is not even in the live list. -/
theorem resolve_cn_env_beats_requested :
    (_resolve_cn {cn_model_name := some "envM"} (some "reqM") none ["reqM"] []).1 = "envM"
    ∧ resolve_model_spec (some "reqM") (some "envM") "control_sd15_animal_openpose_fp16"
        ["reqM"] = "reqM"
    ∧ ("envM" : String) ≠ "reqM" := by
  refine ⟨rfl, rfl, ?_⟩
  decide

/-- C9, amended.  The preferred name is environment override → requested name
→ known-good default (env override first).  When the live list is empty
(engine unreachable) or already contains the preferred name, the preferred
name is the result (accepted unresolved in the former case); when the live
list is non-empty and lacks the preferred name, the source falls back to the
first of its fixed known-good candidates present in the live list, keeping
the preferred name when none matches.  Same scheme for the module. -/
theorem resolve_cn_behavior (env : Env) (model_in module_in : Option String)
    (am amod : List String) :
    (am = [] → (_resolve_cn env model_in module_in am amod).1 = preferModel env model_in)
    ∧ (preferModel env model_in ∈ am →
        (_resolve_cn env model_in module_in am amod).1 = preferModel env model_in)
    ∧ (am ≠ [] → preferModel env model_in ∉ am →
        (_resolve_cn env model_in module_in am amod).1
          = ((["control_sd15_animal_openpose_fp16", "control_v11p_sd15_openpose"].find?
              (fun c => am.contains c)).getD (preferModel env model_in)))
    ∧ (amod = [] → (_resolve_cn env model_in module_in am amod).2 = preferModule env module_in)
    ∧ (preferModule env module_in ∈ amod →
        (_resolve_cn env model_in module_in am amod).2 = preferModule env module_in)
    ∧ (amod ≠ [] → preferModule env module_in ∉ amod →
        (_resolve_cn env model_in module_in am amod).2
          = ((["animal_openpose", "openpose_full", "openpose"].find?
              (fun c => amod.contains c)).getD (preferModule env module_in))) := by
  refine ⟨fun h => ?_, fun h => ?_, fun h1 h2 => ?_, fun h => ?_, fun h => ?_, fun h1 h2 => ?_⟩
  · subst h; simp [_resolve_cn]
  · simp [_resolve_cn, h]
  · have hne : am.isEmpty = false := by
      cases am with
      | nil => exact absurd rfl h1
      | cons x xs => rfl
    simp [_resolve_cn, List.find?, hne, h2]
  · subst h; simp [_resolve_cn]
  · simp [_resolve_cn, h]
  · have hne : amod.isEmpty = false := by
      cases amod with
      | nil => exact absurd rfl h1
      | cons x xs => rfl
    simp [_resolve_cn, List.find?, hne, h2]

/-- C9, witness for the amended theorem: with an unreachable engine (empty
live list), the preferred name is accepted unresolved. -/
theorem resolve_cn_behavior_witness :
    (_resolve_cn {} (some "m") none [] []).1 = preferModel {} (some "m") :=
  (resolve_cn_behavior {} (some "m") none [] []).1 rfl

/-- C6.  For EVERY environment (configured or not) and every network stand-in,
a missing local file fails fast with reason "file_missing", no attempts key
and no network call; with no storage configuration at all (no proxy endpoint,
no token) an existing file yields reason "missing_env" with an empty attempts
list and, again, no network call; and the upload outcome never affects the
handler's overall flag (runs differing only in their upload network outcomes
have equal flags). -/
theorem upload_fail_fast (envAny env : Env) (fn rid : String) (netAny net net2 : NetOutcomes)
    (inp : JobRequest) (am amod : List String) (rid2 p : String) (fs0 : List String)
    (roots : List Root) (rc : Int) (sout : String) :
    upload_to_vercel_blob envAny false fn rid netAny
        = ({ok := false, reason := some "file_missing"}, [])
    ∧ (oTruthy env.vercel_blob_proxy_url = none → tokenOf env = none →
        upload_to_vercel_blob env true fn rid net
          = ({ok := false, reason := some "missing_env", attempts := some []}, []))
    ∧ okOf (handler env inp am amod rid2 p fs0 roots net (.completed rc sout))
        = okOf (handler env inp am amod rid2 p fs0 roots net2 (.completed rc sout)) := by
  refine ⟨rfl, fun hProxy hTok => ?_, rfl⟩
  simp [upload_to_vercel_blob, upload_direct, hProxy, hTok]

/-- C6, witness: the file-missing clause at a FULLY CONFIGURED environment
(proxy and token set, upload network standing by) — still no attempt and no
network call — and the missing-env clause at a fully unset one. -/
theorem upload_fail_fast_witness :
    upload_to_vercel_blob
        {vercel_blob_proxy_url := some "https://proxy.example/api/blob",
         vercel_blob_rw_token := some "tok"} false "cat.mp4" "r1"
        {proxy := .resp {status := 200, text := "up", contentTypeJson := false,
                         jsonResult := .error "not json"}}
        = ({ok := false, reason := some "file_missing"}, [])
    ∧ upload_to_vercel_blob {} true "cat.mp4" "r1" {}
        = ({ok := false, reason := some "missing_env", attempts := some []}, []) :=
  ⟨(upload_fail_fast
      {vercel_blob_proxy_url := some "https://proxy.example/api/blob",
       vercel_blob_rw_token := some "tok"} {} "cat.mp4" "r1"
      {proxy := .resp {status := 200, text := "up", contentTypeJson := false,
                       jsonResult := .error "not json"}} {} {} {} [] [] "r2"
      "/tmp/cfg-c.json" [] [] 0 "").1,
   (upload_fail_fast {} {} "cat.mp4" "r1" {} {} {} {} [] [] "r2" "/tmp/cfg-c.json"
      [] [] 0 "").2.1 rfl rfl⟩

/-- C5.  For an upload call that passes the preconditions (file present,
token configured), the strategies run in order — proxy (only when a proxy
endpoint is configured), direct PUT without a leading path separator, then
with one — stopping at the first success; each failed attempt is recorded
with its method name, a status code or error text, and a response-body tail
bounded by 400 characters; and when every configured strategy fails the
result is ok false with reason "all_attempts_failed", the full ordered
attempt list and the remediation hints.  (No legacy multipart transport
exists to configure in this code, so none is ever attempted.) -/
theorem upload_fallback_order (env : Env) (fn rid : String) (net : NetOutcomes) (tk : String)
    (hT : tokenOf env = some tk) :
    (upload_to_vercel_blob env true fn rid net).2
        = (if (oTruthy env.vercel_blob_proxy_url).isSome then ["proxy"] else [])
          ++ (if (oTruthy env.vercel_blob_proxy_url).isSome && proxyTryOk net.proxy then []
              else if putTryOk net.put then ["PUT"] else ["PUT", "PUT-leading-slash"])
    ∧ (upload_to_vercel_blob env true fn rid net).1.ok
        = ((oTruthy env.vercel_blob_proxy_url).isSome && proxyTryOk net.proxy
            || putTryOk net.put || putTryOk net.putSlash)
    ∧ ((upload_to_vercel_blob env true fn rid net).1.ok = true →
        (upload_to_vercel_blob env true fn rid net).1.via
          = some (if (oTruthy env.vercel_blob_proxy_url).isSome && proxyTryOk net.proxy
                  then "proxy" else "api"))
    ∧ ((upload_to_vercel_blob env true fn rid net).1.ok = false →
        (upload_to_vercel_blob env true fn rid net).1.reason = some "all_attempts_failed"
        ∧ (upload_to_vercel_blob env true fn rid net).1.suggest = some suggestHints
        ∧ ∃ l, (upload_to_vercel_blob env true fn rid net).1.attempts = some l
            ∧ l.map (fun a => a.method)
                = (if (oTruthy env.vercel_blob_proxy_url).isSome then ["proxy"] else [])
                  ++ ["PUT", "PUT-leading-slash"]
            ∧ ∀ a ∈ l, attemptDiagOk a) := by
  cases hp : oTruthy env.vercel_blob_proxy_url with
  | none =>
    have hred : upload_to_vercel_blob env true fn rid net
        = upload_direct (pyOr (pyOrO env.vercel_blob_base env.blob_base)
            "https://api.blob.vercel-storage.com")
          (oTruthy env.vercel_blob_public_base) (some tk)
          ("runs/" ++ rid ++ "/" ++ fn) net [] [] := by
      simp [upload_to_vercel_blob, hp, hT]
    obtain ⟨d1, d2, d3, d4⟩ := upload_direct_spec
      (pyOr (pyOrO env.vercel_blob_base env.blob_base) "https://api.blob.vercel-storage.com")
      (oTruthy env.vercel_blob_public_base) tk ("runs/" ++ rid ++ "/" ++ fn) net [] []
    rw [hred]
    refine ⟨by simpa using d1, by simpa using d2, fun hok => by simpa using d3 hok, fun hok => ?_⟩
    obtain ⟨r1, r2, a1, a2, r3, m1, m2, q1, q2⟩ := d4 hok
    refine ⟨r1, r2, [a1, a2], by simpa using r3, by simp [m1, m2], ?_⟩
    intro a ha
    rcases List.mem_cons.mp ha with h | h
    · exact h ▸ q1
    · rcases List.mem_cons.mp h with h' | h'
      · exact h' ▸ q2
      · simp at h'
  | some pu =>
    cases hpk : proxyTryOk net.proxy with
    | true =>
      obtain ⟨res, e1, ro, rv⟩ := proxyStep_ok ("runs/" ++ rid ++ "/" ++ fn) net.proxy hpk
      have hred : upload_to_vercel_blob env true fn rid net = (res, ["proxy"]) := by
        simp [upload_to_vercel_blob, hp, e1]
      rw [hred]
      refine ⟨by simp [hpk], by simp [hpk, ro], fun hok => by simp [hpk, rv], fun hok => ?_⟩
      rw [ro] at hok
      exact absurd hok (by simp)
    | false =>
      obtain ⟨a0, e1, m0, d0⟩ := proxyStep_fail ("runs/" ++ rid ++ "/" ++ fn) net.proxy hpk
      have hred : upload_to_vercel_blob env true fn rid net
          = upload_direct (pyOr (pyOrO env.vercel_blob_base env.blob_base)
              "https://api.blob.vercel-storage.com")
            (oTruthy env.vercel_blob_public_base) (some tk)
            ("runs/" ++ rid ++ "/" ++ fn) net [a0] ["proxy"] := by
        simp [upload_to_vercel_blob, hp, hT, e1]
      obtain ⟨d1, d2, d3, d4⟩ := upload_direct_spec
        (pyOr (pyOrO env.vercel_blob_base env.blob_base) "https://api.blob.vercel-storage.com")
        (oTruthy env.vercel_blob_public_base) tk ("runs/" ++ rid ++ "/" ++ fn) net
        [a0] ["proxy"]
      rw [hred]
      refine ⟨by simpa [hpk] using d1, by simpa [hpk] using d2,
        fun hok => by simpa [hpk] using d3 hok, fun hok => ?_⟩
      obtain ⟨r1, r2, a1, a2, r3, m1, m2, q1, q2⟩ := d4 hok
      refine ⟨r1, r2, [a0, a1, a2], by simpa using r3, by simp [m0, m1, m2], ?_⟩
      intro a ha
      rcases List.mem_cons.mp ha with h | h
      · exact h ▸ d0
      · rcases List.mem_cons.mp h with h' | h'
        · exact h' ▸ q1
        · rcases List.mem_cons.mp h' with h'' | h''
          · exact h'' ▸ q2
          · simp at h''

/-- C5, witness: token configured, no proxy, both PUT variants failing — the
calls made are exactly the two direct PUTs, in order. -/
theorem upload_fallback_order_witness :
    (upload_to_vercel_blob {vercel_blob_rw_token := some "tok"} true "cat.mp4" "r1"
      {proxy := .exn "unused",
       put := .resp {status := 500, text := "server error", contentTypeJson := false,
                     jsonResult := .error "nojson"},
       putSlash := .exn "dns failure"}).2
      = ["PUT", "PUT-leading-slash"] :=
  (upload_fallback_order {vercel_blob_rw_token := some "tok"} "cat.mp4" "r1"
    {proxy := .exn "unused",
     put := .resp {status := 500, text := "server error", contentTypeJson := false,
                   jsonResult := .error "nojson"},
     putSlash := .exn "dns failure"} "tok" rfl).1
